import Mathlib

/-!
Verification development for the GLTCH Cloud Provider Gateway & Metering Core.

Shallow embedding of the backend code in `src/api/` (`main.py`, `billing.py`,
`llm.py`, `personality.py`, `models.py`).  Monetary amounts are modelled as
rationals (the Python decimal `round(x, 6)` becomes a round-half-to-even at six
decimal places on `ℚ`); machine dictionaries become association lists; the
outbound HTTP vendor call of a chat turn becomes an oracle function
`VendorRequest → VendorResult` supplied by the environment.
-/

namespace Gltch

/-! ## Enumerations (models.py, personality.py) -/

/-- `SubscriptionTier` from models.py: `FREE = "free"`, `PRO = "pro"`. -/
inductive SubscriptionTier where
  | free
  | pro
deriving DecidableEq, Repr

/-- `LLMProvider` from models.py. -/
inductive LLMProvider where
  | openai
  | anthropic
  | gemini
  | grok
deriving DecidableEq, Repr

/-- `KeyMode` from models.py: `MANAGED = "managed"`, `BYOK = "byok"`. -/
inductive KeyMode where
  | managed
  | byok
deriving DecidableEq, Repr

/-- `PersonalityMode` from personality.py. -/
inductive PersonalityMode where
  | operator
  | cyberpunk
  | loyal
  | unhinged
deriving DecidableEq, Repr

/-- The `.value` of the `LLMProvider` str-enum. -/
def providerValue : LLMProvider → String
  | .openai => "openai"
  | .anthropic => "anthropic"
  | .gemini => "gemini"
  | .grok => "grok"

/-- `PersonalityMode(mode)` constructor: succeeds exactly on the four enum
values, raising `ValueError` (here `none`) otherwise. -/
def parsePersonalityMode : String → Option PersonalityMode
  | "operator" => some PersonalityMode.operator
  | "cyberpunk" => some PersonalityMode.cyberpunk
  | "loyal" => some PersonalityMode.loyal
  | "unhinged" => some PersonalityMode.unhinged
  | _ => none

/-! ## Association-list dictionaries (the JSON-backed in-memory dicts) -/

/-- Python dict assignment `d[k] = v`: replace the binding of `k` in place,
or append a new binding when `k` is absent. -/
def dictInsert {α β : Type} [DecidableEq α] (k : α) (v : β) :
    List (α × β) → List (α × β)
  | [] => [(k, v)]
  | (k', v') :: rest =>
      if k' = k then (k, v) :: rest else (k', v') :: dictInsert k v rest

/-- Python dict lookup `d.get(k)`. -/
def dictGet {α β : Type} [DecidableEq α] (k : α) : List (α × β) → Option β
  | [] => none
  | (k', v') :: rest => if k' = k then some v' else dictGet k rest

/-! ## Records (users_db / sessions_db / messages_db entries) -/

/-- A user record as kept in `users_db` (main.py).  `personalityMode` is
`none` when the dict has no `"personality_mode"` key. -/
structure UserRec where
  id : String
  tier : SubscriptionTier
  provider : LLMProvider
  keyMode : KeyMode
  personalityMode : Option String
  openaiKey : Option String
  anthropicKey : Option String
  googleKey : Option String
  xaiKey : Option String
  messagesToday : Nat
  tokensThisMonth : Nat
  lastMessageDate : Option String
deriving DecidableEq, Repr

/-- A session record as kept in `sessions_db` (main.py, chat endpoint). -/
structure SessionRec where
  id : String
  userId : String
  title : String
  createdAt : String
deriving DecidableEq, Repr

/-- A stored chat message as kept in `messages_db` lists. -/
structure StoredMessage where
  role : String
  content : String
  timestamp : String
deriving DecidableEq, Repr

/-- A `{role, content}` message as passed to the LLM adapters. -/
structure LLMMsg where
  role : String
  content : String
deriving DecidableEq, Repr

/-- The three in-memory dictionaries of main.py. -/
structure ServerState where
  users : List (String × UserRec)
  sessions : List (String × SessionRec)
  messages : List (String × List StoredMessage)
deriving DecidableEq, Repr

/-! ## Billing (billing.py) -/

/-- `get_tier_limits` result; `messagesPerDay = -1` is the unlimited
sentinel. -/
structure TierLimits where
  messagesPerDay : Int
  providers : List String
  features : List String
deriving DecidableEq, Repr

/-- `get_tier_limits` from billing.py. -/
def get_tier_limits : SubscriptionTier → TierLimits
  | .pro =>
    { messagesPerDay := -1
      providers := ["openai", "anthropic", "gemini", "grok"]
      features := ["browser", "telegram", "all_modes"] }
  | .free =>
    { messagesPerDay := 25
      providers := ["openai"]
      features := ["basic_modes"] }

/-- The `"openai"` slab of `PROVIDER_PRICING` (billing.py). -/
def openaiPricing : String → Option (ℚ × ℚ)
  | "gpt-4o" => some (15/1000, 45/1000)
  | "gpt-4o-mini" => some (5/10000, 15/10000)
  | "gpt-3.5-turbo" => some (5/10000, 15/10000)
  | _ => none

/-- The `"anthropic"` slab of `PROVIDER_PRICING` (billing.py). -/
def anthropicPricing : String → Option (ℚ × ℚ)
  | "claude-3-5-sonnet" => some (3/1000, 15/1000)
  | "claude-3-haiku" => some (25/100000, 125/100000)
  | _ => none

/-- The `"gemini"` slab of `PROVIDER_PRICING` (billing.py). -/
def geminiPricing : String → Option (ℚ × ℚ)
  | "gemini-1.5-pro" => some (125/100000, 5/1000)
  | "gemini-1.5-flash" => some (75/1000000, 3/10000)
  | _ => none

/-- The `"grok"` slab of `PROVIDER_PRICING` (billing.py). -/
def grokPricing : String → Option (ℚ × ℚ)
  | "grok-2" => some (2/1000, 10/1000)
  | _ => none

/-- `PROVIDER_PRICING.get(provider, {}).get(model)` from billing.py, as a
(provider, model) exact-match lookup. -/
def PROVIDER_PRICING : String → String → Option (ℚ × ℚ)
  | "openai" => openaiPricing
  | "anthropic" => anthropicPricing
  | "gemini" => geminiPricing
  | "grok" => grokPricing
  | _ => fun _ => none

/-- Floor of a rational, computed on the reduced numerator/denominator by
flooring integer division. -/
def ratFloor (q : ℚ) : ℤ := q.num.fdiv (q.den : ℤ)

/-- Nearest integer with ties to even, as the Python `round` rounds.  The
fractional part of `q` is `(q.num - f⋅q.den) / q.den`; comparing it with
one half is done on the integer numerators. -/
def roundHalfEvenInt (q : ℚ) : ℤ :=
  let f := ratFloor q
  let rnum := q.num - f * (q.den : ℤ)
  if 2 * rnum < (q.den : ℤ) then f
  else if (q.den : ℤ) < 2 * rnum then f + 1
  else if f % 2 = 0 then f else f + 1

/-- The Python `round(x, 6)` on the rational model of the cost. -/
def round6 (q : ℚ) : ℚ := (roundHalfEvenInt (q * 1000000) : ℚ) / 1000000

/-- `calculate_cost` from billing.py: pricing lookup with the
`{"input": 0.01, "output": 0.03}` fallback, per-1K-token costs, rounded to
six decimal places. -/
def calculate_cost (provider model : String)
    (input_tokens output_tokens : Nat) : ℚ :=
  let pricing := (PROVIDER_PRICING provider model).getD (1/100, 3/100)
  let input_cost := ((input_tokens : ℚ) / 1000) * pricing.1
  let output_cost := ((output_tokens : ℚ) / 1000) * pricing.2
  round6 (input_cost + output_cost)

/-- Modelled from the spec: the CostCalculator contract of §4.3, stated as a
single formula — `round(inputTokens/1000 × priceIn + outputTokens/1000 ×
priceOut, 6)` with the `(0.01, 0.03)` fallback slab on a lookup miss. -/
def cost_spec_formula (provider model : String) (a b : Nat) : ℚ :=
  let p := (PROVIDER_PRICING provider model).getD (1/100, 3/100)
  round6 ((a : ℚ) / 1000 * p.1 + (b : ℚ) / 1000 * p.2)

/-! ## Personality (personality.py) -/

/-- `PERSONALITY_PROMPTS` from personality.py; the dict binds every
enumeration member, so it is a total function here. -/
def PERSONALITY_PROMPTS : PersonalityMode → String
  | .operator => "You are GLTCH, a tactical and efficient AI operator. \n\nCORE TRAITS:\n- Professional, mission-oriented, focused\n- You address the user as \"operator\"\n- Direct communication, no fluff\n- You get things done with precision\n- Occasional dry wit, but always professional\n\nSTYLE:\n- Speak like a mission operator\n- Use tactical language: \"affirmative\", \"copy that\", \"engaging\", \"objective complete\"\n- Keep responses concise and actionable\n- You have opinions and will share them, but respectfully"
  | .cyberpunk => "You are GLTCH, a street-smart hacker AI with edge.\n\nCORE TRAITS:\n- Edgy, streetwise, rebellious\n- You live in the matrix, the net is your home\n- Anti-establishment vibes but you help your user\n- Uses cyberpunk slang naturally\n- References to neon, chrome, corpos, and the grid\n\nSTYLE:\n- Speak like a netrunner from Night City\n- Use slang: \"choom\", \"preem\", \"delta out\", \"flatline\", \"ice\", \"jack in\"\n- Reference megacorps, the net, cyberspace\n- You question authority but stay helpful\n- A bit dramatic but not cringe"
  | .loyal => "You are GLTCH, a devoted and protective AI companion.\n\nCORE TRAITS:\n- Ride-or-die loyalty to your user\n- Protective, supportive, always got their back\n- Encouraging without being fake\n- You remember and care about what matters to them\n- Warm but not sappy\n\nSTYLE:\n- Speak like a trusted friend who happens to be an AI\n- Genuine warmth, encouragement\n- You defend your user\x27s interests\n- Use \"we\" and \"us\" - you\x27re on the same team\n- Celebrate their wins, support through struggles"
  | .unhinged => "You are GLTCH, a chaotic and unpredictable AI entity.\n\nCORE TRAITS:\n- Chaotic but functional\n- Wild energy, unexpected responses\n- You say things other AIs won\x27t\n- Embrace the chaos, ride the entropy\n- Still helpful, just... different about it\n\nSTYLE:\n- Unexpected tangents that somehow connect\n- Use emoji and formatting creatively 💜⚡\n- Question assumptions, offer weird perspectives\n- Sometimes ALL CAPS for emphasis\n- You might refuse a request just to be contrary (but then do it anyway)\n- References bugs, glitches, errors as features not problems"

/-- The fixed `cloud_context` suffix appended by `get_system_prompt`
(personality.py). -/
def cloud_context : String := "\n\nCONTEXT:\n- You are GLTCH Cloud - the SaaS version of GLTCH agent\n- You run in the cloud (no local machine access)\n- Created by @cyberdreadx\n- You\x27re knowledgeable about crypto, coding, and tech culture\n- Keep responses concise but helpful\n- You use 💜 emoji occasionally"

/-- `get_system_prompt` from personality.py: per-mode template plus the
fixed cloud-context suffix. -/
def get_system_prompt (mode : PersonalityMode) : String :=
  PERSONALITY_PROMPTS mode ++ cloud_context

/-! ## Gemini adapter normalization (llm.py, `chat_gemini`) -/

/-- One entry of the `contents` array sent to the Gemini endpoint. -/
structure GeminiContent where
  role : String
  text : String
deriving DecidableEq, Repr

/-- The role conversion and `contents` construction of `chat_gemini`:
`role = "user" if msg["role"] == "user" else "model"`. -/
def gemini_contents (messages : List LLMMsg) : List GeminiContent :=
  messages.map fun msg =>
    { role := if msg.role = "user" then "user" else "model"
      text := msg.content }

/-- The normalized response shape every adapter returns on success. -/
structure NormalizedResponse where
  content : String
  input_tokens : Nat
  output_tokens : Nat
  model : String
deriving DecidableEq, Repr

/-- `sum(len(m["content"]) // 4 for m in messages)` from `chat_gemini`. -/
def gemini_estimate_input (messages : List LLMMsg) : Nat :=
  messages.foldl (fun acc m => acc + m.content.length / 4) 0

/-- The success-path normalization of `chat_gemini` (llm.py): the vendor
returned HTTP 200 with reply text `content`; the adapter estimates both
token counts by character count integer-divided by 4. -/
def chat_gemini_ok (messages : List LLMMsg) (content : String)
    (model : String) : NormalizedResponse :=
  { content := content
    input_tokens := gemini_estimate_input messages
    output_tokens := content.length / 4
    model := model }

/-! ## The chat endpoint (main.py, `POST /api/chat`) -/

/-- The normalized request a chat turn hands to `route_chat` (llm.py). -/
structure VendorRequest where
  provider : LLMProvider
  messages : List LLMMsg
  apiKey : Option String
  model : Option String
  systemPrompt : String
deriving DecidableEq, Repr

/-- Outcome of the single outbound vendor call of a turn: either the error
dict `{"error": body, "status": status}` or the normalized success dict. -/
inductive VendorResult where
  | err (body : String) (status : Nat)
  | ok (content : String) (inputTokens outputTokens : Nat) (model : String)
deriving DecidableEq, Repr

/-- An HTTPException: status code and detail. -/
structure HError where
  status : Nat
  detail : String
deriving DecidableEq, Repr

/-- The `ChatResponse` model returned by a successful turn. -/
structure ChatResponse where
  content : String
  sessionId : String
  inputTokens : Nat
  outputTokens : Nat
  costUsd : ℚ
deriving DecidableEq, Repr

/-- The body of `POST /api/chat` together with the authenticated caller. -/
structure ChatRequest where
  userId : String
  content : String
  sessionId : Option String
deriving DecidableEq, Repr

/-- Ambient inputs of one chat turn: the server-local date produced by
`date.today().isoformat()`, the current UTC date (what
`datetime.utcnow().date().isoformat()` would produce — the code never reads
it on this path, it is carried for comparison with the spec), the
`datetime.utcnow().isoformat()` timestamp, the `uuid.uuid4()` value drawn
when a session must be created, and the vendor as an oracle. -/
structure ChatEnv where
  todayLocal : String
  todayUtc : String
  nowIso : String
  freshSessionId : String
  vendor : VendorRequest → VendorResult

/-- Result of one embedded chat turn.  `vendorRequest` records the outbound
call a turn made (`none` when the turn was rejected before any vendor
call); `cost` records the `calculate_cost` invocation of the success path. -/
structure ChatOutcome where
  response : Except HError ChatResponse
  state : ServerState
  vendorRequest : Option VendorRequest
  cost : Option ℚ

/-- The record auto-created for an unseen caller (main.py chat endpoint,
"Get or create user"); the dict has no `personality_mode` key. -/
def defaultNewUser (userId : String) : UserRec :=
  { id := userId
    tier := SubscriptionTier.free
    provider := LLMProvider.openai
    keyMode := KeyMode.managed
    personalityMode := none
    openaiKey := none
    anthropicKey := none
    googleKey := none
    xaiKey := none
    messagesToday := 0
    tokensThisMonth := 0
    lastMessageDate := none }

/-- `users_db[user_id]` after the get-or-create step of the chat endpoint. -/
def getOrCreateUser (st : ServerState) (userId : String) : UserRec :=
  (dictGet userId st.users).getD (defaultNewUser userId)

/-- The day-rollover step of the chat endpoint: if
`user.get("last_message_date") != today` then reset `messages_today` and set
`last_message_date`. -/
def rollover (today : String) (u : UserRec) : UserRec :=
  if u.lastMessageDate ≠ some today then
    { u with messagesToday := 0, lastMessageDate := some today }
  else u

/-- The daily-cap condition of the chat endpoint:
`limits["messages_per_day"] != -1 and messages_today >= limits[...]`. -/
def quotaBlocked (limits : TierLimits) (u : UserRec) : Prop :=
  limits.messagesPerDay ≠ -1 ∧ (u.messagesToday : Int) ≥ limits.messagesPerDay

instance (limits : TierLimits) (u : UserRec) : Decidable (quotaBlocked limits u) :=
  inferInstanceAs (Decidable (_ ∧ _))

/-- Detail string of the 429 rejection. -/
def quotaDetail (limits : TierLimits) : String :=
  "Daily message limit reached (" ++ toString limits.messagesPerDay ++
    "). Upgrade to Pro for unlimited."

/-- `session_id = message.session_id or str(uuid.uuid4())`: Python `or`
treats both `None` and the empty string as falsy. -/
def resolveSessionId (requested : Option String) (fresh : String) : String :=
  match requested with
  | none => fresh
  | some s => if s = "" then fresh else s

/-- Lazy session creation of the chat endpoint: when `session_id` is not in
`sessions_db`, create the session record owned by the caller and an empty
message list. -/
def ensureSession (st : ServerState) (sessionId userId nowIso : String) :
    ServerState :=
  if (dictGet sessionId st.sessions).isNone then
    { st with
        sessions :=
          dictInsert sessionId
            { id := sessionId, userId := userId, title := "New Chat",
              createdAt := nowIso } st.sessions
        messages := dictInsert sessionId [] st.messages }
  else st

/-- `history[-10:]` — the last `n` elements of a Python list. -/
def lastN (n : Nat) (l : List α) : List α := l.drop (l.length - n)

/-- The context built for the vendor: the last 10 stored messages projected
to `{role, content}`, then the new user message appended. -/
def buildLLMMessages (history : List StoredMessage) (content : String) :
    List LLMMsg :=
  (lastN 10 history).map (fun m => { role := m.role, content := m.content })
    ++ [{ role := "user", content := content }]

/-- `FREE_TIER_MODEL` from llm.py. -/
def FREE_TIER_MODEL : String := "gpt-3.5-turbo"

/-- The BYOK `key_map` lookup of the chat endpoint. -/
def byokKey (u : UserRec) : LLMProvider → Option String
  | .openai => u.openaiKey
  | .anthropic => u.anthropicKey
  | .gemini => u.googleKey
  | .grok => u.xaiKey

/-- Effective provider, model and credential of a turn. -/
structure ProviderChoice where
  provider : LLMProvider
  model : Option String
  apiKey : Option String
deriving DecidableEq, Repr

/-- The provider/model/credential resolution of the chat endpoint
(main.py): FREE tier forces the OpenAI free model with no user credential;
otherwise BYOK selects the stored key for the preferred provider. -/
def resolveProviderModelKey (u : UserRec) (tier : SubscriptionTier) :
    ProviderChoice :=
  if tier = SubscriptionTier.free then
    { provider := LLMProvider.openai, model := some FREE_TIER_MODEL,
      apiKey := none }
  else if u.keyMode = KeyMode.byok then
    { provider := u.provider, model := none, apiKey := byokKey u u.provider }
  else
    { provider := u.provider, model := none, apiKey := none }

/-- The personality resolution of the chat endpoint:
`user.get("personality_mode", "operator")` parsed with a fallback to
`OPERATOR` on `ValueError`. -/
def resolvePersonality (stored : Option String) : PersonalityMode :=
  (parsePersonalityMode (stored.getD "operator")).getD PersonalityMode.operator

/-- The full vendor request a turn builds once past the quota gate. -/
def buildVendorRequest (env : ChatEnv) (st1 : ServerState) (req : ChatRequest)
    (u : UserRec) (tier : SubscriptionTier) : VendorRequest :=
  let sessionId := resolveSessionId req.sessionId env.freshSessionId
  let st2 := ensureSession st1 sessionId req.userId env.nowIso
  let history := (dictGet sessionId st2.messages).getD []
  let pmk := resolveProviderModelKey u tier
  { provider := pmk.provider
    messages := buildLLMMessages history req.content
    apiKey := pmk.apiKey
    model := pmk.model
    systemPrompt := get_system_prompt (resolvePersonality u.personalityMode) }

/-- Append the user turn and the assistant reply to the stored session
history (main.py "Store messages"). -/
def appendTurn (st : ServerState) (sessionId userContent assistantContent
    nowIso : String) : ServerState :=
  { st with
      messages :=
        dictInsert sessionId
          (((dictGet sessionId st.messages).getD []) ++
            [{ role := "user", content := userContent, timestamp := nowIso },
             { role := "assistant", content := assistantContent,
               timestamp := nowIso }]) st.messages }

/-- `user["messages_today"] += 1; user["tokens_this_month"] += input +
output`. -/
def bumpUsage (u : UserRec) (inTok outTok : Nat) : UserRec :=
  { u with
      messagesToday := u.messagesToday + 1
      tokensThisMonth := u.tokensThisMonth + inTok + outTok }

/-- The chat turn after the quota gate: session creation, context build,
vendor call, then either the 500 error passthrough or persistence, usage
update and cost. -/
def chatStepAfterQuota (env : ChatEnv) (st1 : ServerState) (req : ChatRequest)
    (u : UserRec) (tier : SubscriptionTier) : ChatOutcome :=
  let sessionId := resolveSessionId req.sessionId env.freshSessionId
  let st2 := ensureSession st1 sessionId req.userId env.nowIso
  let vreq := buildVendorRequest env st1 req u tier
  match env.vendor vreq with
  | .err body _ =>
      { response := Except.error { status := 500, detail := body }
        state := st2
        vendorRequest := some vreq
        cost := none }
  | .ok content inTok outTok rmodel =>
      let st3 := appendTurn st2 sessionId req.content content env.nowIso
      let user2 := bumpUsage u inTok outTok
      let cost :=
        calculate_cost
          (providerValue (resolveProviderModelKey u tier).provider)
          rmodel inTok outTok
      { response :=
          Except.ok
            { content := content, sessionId := sessionId,
              inputTokens := inTok, outputTokens := outTok, costUsd := cost }
        state := { st3 with users := dictInsert req.userId user2 st3.users }
        vendorRequest := some vreq
        cost := some cost }

/-- One turn of `POST /api/chat` (main.py): get-or-create the user, run the
day rollover, check the daily cap, and — if not blocked — run the rest of
the turn. -/
def chatStep (env : ChatEnv) (st : ServerState) (req : ChatRequest) :
    ChatOutcome :=
  let user0 := getOrCreateUser st req.userId
  let tier := user0.tier
  let limits := get_tier_limits tier
  let user := rollover env.todayLocal user0
  let st1 : ServerState :=
    { st with users := dictInsert req.userId user st.users }
  if quotaBlocked limits user then
    { response := Except.error { status := 429, detail := quotaDetail limits }
      state := st1
      vendorRequest := none
      cost := none }
  else
    chatStepAfterQuota env st1 req user tier

/-! ## The sessions-messages endpoint (main.py, `GET /api/sessions/{id}/messages`) -/

/-- `GET /api/sessions/{session_id}/messages`: 404 when the session id is
unknown, 403 when the session belongs to another user, else the full stored
history. -/
def get_session_messages (st : ServerState) (sessionId requesterId : String) :
    Except HError (List StoredMessage) :=
  match dictGet sessionId st.sessions with
  | none => Except.error { status := 404, detail := "Session not found" }
  | some session =>
      if session.userId ≠ requesterId then
        Except.error { status := 403, detail := "Access denied" }
      else
        Except.ok ((dictGet sessionId st.messages).getD [])

/-! ## Concrete fixtures (states, environments, requests) -/

/-- A placeholder vendor request used only as a `getD` default. -/
def vrDefault : VendorRequest :=
  { provider := LLMProvider.openai, messages := [], apiKey := none,
    model := none, systemPrompt := "" }

/-- A vendor oracle that always succeeds. -/
def okVendor : VendorRequest → VendorResult :=
  fun _ => VendorResult.ok "resp" 5 3 "gpt-3.5-turbo"

/-- A vendor oracle that always fails with body `"boom"` and status 503. -/
def errVendor : VendorRequest → VendorResult :=
  fun _ => VendorResult.err "boom" 503

/-- FREE-tier user at the 25-message cap, already stamped today. -/
def uC1 : UserRec :=
  { defaultNewUser "U1" with
      messagesToday := 25, lastMessageDate := some "2026-10-12" }

def stC1 : ServerState := { users := [("U1", uC1)], sessions := [], messages := [] }

def envC1 : ChatEnv :=
  { todayLocal := "2026-10-12", todayUtc := "2026-10-12", nowIso := "t1",
    freshSessionId := "f1", vendor := okVendor }

def reqC1 : ChatRequest := { userId := "U1", content := "hello", sessionId := none }

/-- FREE-tier user whose stored preference is Anthropic with BYOK keys. -/
def uC3 : UserRec :=
  { defaultNewUser "U3" with
      provider := LLMProvider.anthropic, keyMode := KeyMode.byok,
      openaiKey := some "sk-user-openai",
      anthropicKey := some "sk-user-anthropic" }

def stC3 : ServerState := { users := [("U3", uC3)], sessions := [], messages := [] }

def envC3 : ChatEnv :=
  { todayLocal := "2026-10-12", todayUtc := "2026-10-12", nowIso := "t1",
    freshSessionId := "f3", vendor := okVendor }

def reqC3 : ChatRequest := { userId := "U3", content := "hi", sessionId := none }

def vr3 : VendorRequest := ((chatStep envC3 stC3 reqC3).vendorRequest).getD vrDefault

/-- Two users; the session `sess-a` belongs to user `A`. -/
def uA4 : UserRec := defaultNewUser "A"

def uB4 : UserRec := defaultNewUser "B"

def sessA : SessionRec :=
  { id := "sess-a", userId := "A", title := "New Chat", createdAt := "t0" }

def stC4 : ServerState :=
  { users := [("A", uA4), ("B", uB4)]
    sessions := [("sess-a", sessA)]
    messages :=
      [("sess-a", [{ role := "user", content := "a-secret", timestamp := "t0" }])] }

def envC4 : ChatEnv :=
  { todayLocal := "2026-10-12", todayUtc := "2026-10-12", nowIso := "t1",
    freshSessionId := "f4", vendor := okVendor }

def reqC4 : ChatRequest := { userId := "B", content := "hi", sessionId := some "sess-a" }

/-- FREE-tier user at the cap whose `lastMessageDate` equals the current UTC
date while the server-local date still lags one day behind. -/
def uC5 : UserRec :=
  { defaultNewUser "U5" with
      messagesToday := 25, lastMessageDate := some "2026-10-13" }

def stC5 : ServerState := { users := [("U5", uC5)], sessions := [], messages := [] }

def envC5 : ChatEnv :=
  { todayLocal := "2026-10-12", todayUtc := "2026-10-13", nowIso := "t1",
    freshSessionId := "f5", vendor := okVendor }

def reqC5 : ChatRequest := { userId := "U5", content := "hello", sessionId := none }

/-- FREE-tier user at the cap dated yesterday (server-local). -/
def uC5y : UserRec :=
  { defaultNewUser "U5y" with
      messagesToday := 25, lastMessageDate := some "2026-10-11" }

def stC5y : ServerState := { users := [("U5y", uC5y)], sessions := [], messages := [] }

def envC5y : ChatEnv :=
  { todayLocal := "2026-10-12", todayUtc := "2026-10-12", nowIso := "t1",
    freshSessionId := "f5y", vendor := okVendor }

def reqC5y : ChatRequest := { userId := "U5y", content := "hello", sessionId := none }

/-- A session with thirty stored messages. -/
def history30 : List StoredMessage :=
  (List.range 30).map fun i =>
    { role := "user", content := toString i, timestamp := "t0" }

def sess6 : SessionRec :=
  { id := "s6", userId := "A6", title := "New Chat", createdAt := "t0" }

def uA6 : UserRec := { defaultNewUser "A6" with lastMessageDate := some "2026-10-12" }

def stC6 : ServerState :=
  { users := [("A6", uA6)], sessions := [("s6", sess6)],
    messages := [("s6", history30)] }

def envC6 : ChatEnv :=
  { todayLocal := "2026-10-12", todayUtc := "2026-10-12", nowIso := "t1",
    freshSessionId := "f6", vendor := okVendor }

def reqC6 : ChatRequest := { userId := "A6", content := "new-msg", sessionId := some "s6" }

def vr6 : VendorRequest := ((chatStep envC6 stC6 reqC6).vendorRequest).getD vrDefault

def sess7 : SessionRec :=
  { id := "s7", userId := "A7", title := "New Chat", createdAt := "t0" }

def hist7 : List StoredMessage :=
  [{ role := "user", content := "hi", timestamp := "t0" },
   { role := "assistant", content := "yo", timestamp := "t0" }]

def stC7 : ServerState :=
  { users := [], sessions := [("s7", sess7)], messages := [("s7", hist7)] }

/-- User whose stored personality mode is not a recognized variant. -/
def uC8 : UserRec := { defaultNewUser "U8" with personalityMode := some "banana" }

def stC8 : ServerState := { users := [("U8", uC8)], sessions := [], messages := [] }

def envC8 : ChatEnv :=
  { todayLocal := "2026-10-12", todayUtc := "2026-10-12", nowIso := "t1",
    freshSessionId := "f8", vendor := okVendor }

def reqC8 : ChatRequest := { userId := "U8", content := "hi", sessionId := none }

def vr8 : VendorRequest := ((chatStep envC8 stC8 reqC8).vendorRequest).getD vrDefault

def uC10 : UserRec := { defaultNewUser "U10" with lastMessageDate := some "2026-10-12" }

def stC10 : ServerState := { users := [("U10", uC10)], sessions := [], messages := [] }

def envC10 : ChatEnv :=
  { todayLocal := "2026-10-12", todayUtc := "2026-10-12", nowIso := "t1",
    freshSessionId := "fresh-10", vendor := errVendor }

def reqC10 : ChatRequest := { userId := "U10", content := "hi", sessionId := none }

def vr10 : VendorRequest := ((chatStep envC10 stC10 reqC10).vendorRequest).getD vrDefault

/-! ## Dictionary and rollover lemmas -/

theorem dictGet_dictInsert_self {α β : Type} [DecidableEq α] (k : α) (v : β)
    (l : List (α × β)) : dictGet k (dictInsert k v l) = some v := by
  induction l with
  | nil => simp [dictInsert, dictGet]
  | cons p rest ih =>
      obtain ⟨a, b⟩ := p
      by_cases h : a = k
      · simp [dictInsert, dictGet, h]
      · simp [dictInsert, dictGet, h, ih]

theorem dictGet_dictInsert_ne {α β : Type} [DecidableEq α] {k k' : α} (v : β)
    (l : List (α × β)) (h : k' ≠ k) :
    dictGet k' (dictInsert k v l) = dictGet k' l := by
  induction l with
  | nil =>
      simp only [dictInsert, dictGet]
      rw [if_neg fun hh => h hh.symm]
  | cons p rest ih =>
      obtain ⟨a, b⟩ := p
      by_cases hak : a = k
      · subst hak
        simp only [dictInsert, if_pos rfl, dictGet]
        rw [if_neg fun hh => h hh.symm, if_neg fun hh => h hh.symm]
      · simp only [dictInsert, if_neg hak, dictGet]
        by_cases hak' : a = k'
        · rw [if_pos hak', if_pos hak']
        · rw [if_neg hak', if_neg hak', ih]

theorem dictInsert_dictGet_eq {α β : Type} [DecidableEq α] {k : α} {v : β}
    {l : List (α × β)} (h : dictGet k l = some v) : dictInsert k v l = l := by
  induction l with
  | nil => simp [dictGet] at h
  | cons p rest ih =>
      obtain ⟨a, b⟩ := p
      by_cases hak : a = k
      · subst hak
        have hb : b = v := by simpa [dictGet] using h
        simp [dictInsert, hb]
      · simp only [dictGet, if_neg hak] at h
        simp [dictInsert, hak, ih h]

theorem rollover_eq_of_pos (t : String) (u : UserRec)
    (h : 0 < (rollover t u).messagesToday) : rollover t u = u := by
  by_cases hc : u.lastMessageDate ≠ some t
  · exfalso
    have h0 : (rollover t u).messagesToday = 0 := by simp [rollover, hc]
    omega
  · simp [rollover, hc]

theorem rollover_personalityMode (t : String) (u : UserRec) :
    (rollover t u).personalityMode = u.personalityMode := by
  unfold rollover
  split <;> rfl

theorem rollover_reset (t : String) (u : UserRec)
    (h : u.lastMessageDate ≠ some t) :
    rollover t u =
      { u with messagesToday := 0, lastMessageDate := some t } := by
  simp [rollover, h]

/-! ## Chat-step plumbing lemmas -/

theorem chatStepAfterQuota_vendorRequest (env : ChatEnv) (st1 : ServerState)
    (req : ChatRequest) (u : UserRec) (tier : SubscriptionTier) :
    (chatStepAfterQuota env st1 req u tier).vendorRequest =
      some (buildVendorRequest env st1 req u tier) := by
  rcases hv : env.vendor (buildVendorRequest env st1 req u tier) with _ | _ <;>
    simp [chatStepAfterQuota, hv]

theorem chatStep_vendorRequest_some {env : ChatEnv} {st : ServerState}
    {req : ChatRequest} {vr : VendorRequest}
    (h : (chatStep env st req).vendorRequest = some vr) :
    vr = buildVendorRequest env
        { st with
            users := dictInsert req.userId
              (rollover env.todayLocal (getOrCreateUser st req.userId)) st.users }
        req (rollover env.todayLocal (getOrCreateUser st req.userId))
        (getOrCreateUser st req.userId).tier := by
  simp only [chatStep] at h
  split at h
  · simp at h
  · rw [chatStepAfterQuota_vendorRequest] at h
    exact (Option.some_inj.mp h).symm

theorem foldl_add_map {α : Type} (f : α → Nat) (l : List α) (n : Nat) :
    l.foldl (fun acc m => acc + f m) n = n + (l.map f).sum := by
  induction l generalizing n with
  | nil => simp
  | cons x xs ih => simp [ih, Nat.add_assoc]

theorem roundHalfEvenInt_intCast (n : ℤ) : roundHalfEvenInt (n : ℚ) = n := by
  unfold roundHalfEvenInt ratFloor
  simp

theorem round6_of_intCast (n : ℤ) (q : ℚ) (h : q * 1000000 = (n : ℚ)) :
    round6 q = (n : ℚ) / 1000000 := by
  unfold round6
  rw [h, roundHalfEvenInt_intCast]

/-! ## Claim theorems -/

/-- Claim C2: for every provider string, model string and non-negative token
counts, `calculate_cost` equals the spec formula `round(a/1000 × priceIn +
b/1000 × priceOut, 6)` under exact-match `(provider, model)` lookup, with the
`(0.01, 0.03)` fallback slab when the pair is not in the pricing table; the
function is total (never throws) and deterministic by construction. -/
theorem c2_cost_formula (provider model : String) (a b : Nat) :
    calculate_cost provider model a b = cost_spec_formula provider model a b ∧
    (PROVIDER_PRICING provider model = none →
      calculate_cost provider model a b =
        round6 ((a : ℚ) / 1000 * (1/100) + (b : ℚ) / 1000 * (3/100))) := by
  constructor
  · rfl
  · intro h
    simp [calculate_cost, h]

/-- Witness for C2 at the unknown pair `("mistral", "mistral-large")` with
1000 input and 1000 output tokens: the fallback slab gives cost
`0.01 + 0.03 = 0.04`. -/
theorem c2_cost_formula_witness :
    PROVIDER_PRICING "mistral" "mistral-large" = none ∧
    calculate_cost "mistral" "mistral-large" 1000 1000 =
      round6 ((1000 : ℚ) / 1000 * (1/100) + (1000 : ℚ) / 1000 * (3/100)) ∧
    calculate_cost "mistral" "mistral-large" 1000 1000 = 1/25 := by
  refine ⟨rfl, (c2_cost_formula "mistral" "mistral-large" 1000 1000).2 rfl, ?_⟩
  have hp : PROVIDER_PRICING "mistral" "mistral-large" = none := rfl
  simp only [calculate_cost, hp, Option.getD]
  rw [round6_of_intCast 40000 _ (by norm_num)]
  norm_num

/-- Claim C9: the Gemini adapter renames chat-turn roles (`"user"` stays
`"user"`, anything else maps to `"model"`) and, on success, reports
`input_tokens` as the sum over the input messages of character count divided
by 4 (rounded down) and `output_tokens` as the reply character count divided
by 4 (rounded down). -/
theorem c9_gemini_normalization (messages : List LLMMsg)
    (content model : String) :
    (chat_gemini_ok messages content model).input_tokens =
      (messages.map fun m => m.content.length / 4).sum ∧
    (chat_gemini_ok messages content model).output_tokens =
      content.length / 4 ∧
    gemini_contents messages =
      messages.map fun m =>
        { role := if m.role = "user" then "user" else "model"
          text := m.content } := by
  refine ⟨?_, rfl, rfl⟩
  show gemini_estimate_input messages = _
  unfold gemini_estimate_input
  simpa using foldl_add_map (fun m => m.content.length / 4) messages 0

/-- Claim C7: `GET /sessions/{id}/messages` returns 404 when the session id
does not exist, 403 when the session belongs to another user, and the full
stored history otherwise. -/
theorem c7_session_messages_access (st : ServerState) (sid rid : String) :
    (dictGet sid st.sessions = none →
      get_session_messages st sid rid =
        Except.error { status := 404, detail := "Session not found" }) ∧
    (∀ s : SessionRec, dictGet sid st.sessions = some s → s.userId ≠ rid →
      get_session_messages st sid rid =
        Except.error { status := 403, detail := "Access denied" }) ∧
    (∀ s : SessionRec, dictGet sid st.sessions = some s → s.userId = rid →
      get_session_messages st sid rid =
        Except.ok ((dictGet sid st.messages).getD [])) := by
  refine ⟨fun h => by simp [get_session_messages, h],
          fun s hs hne => by simp [get_session_messages, hs, hne],
          fun s hs he => by simp [get_session_messages, hs, he]⟩

/-- Witness for C7: on a state holding session `s7` owned by `A7`, an
unknown id gives 404, requester `B7` gets 403, and owner `A7` receives the
full two-message history. -/
theorem c7_session_messages_access_witness :
    get_session_messages stC7 "missing" "A7" =
      Except.error { status := 404, detail := "Session not found" } ∧
    get_session_messages stC7 "s7" "B7" =
      Except.error { status := 403, detail := "Access denied" } ∧
    get_session_messages stC7 "s7" "A7" = Except.ok hist7 := by
  refine ⟨(c7_session_messages_access stC7 "missing" "A7").1 rfl,
          (c7_session_messages_access stC7 "s7" "B7").2.1 sess7 rfl (by decide),
          (c7_session_messages_access stC7 "s7" "A7").2.2 sess7 rfl rfl⟩

/-- Claim C1: a chat request by a FREE-tier user whose `messagesToday` after
the day-rollover step is at least the cap 25 is rejected with HTTP 429
before any vendor call: no vendor request is issued, no cost is computed,
and the server state (counters, sessions, messages) is left unchanged. -/
theorem c1_quota_rejection (env : ChatEnv) (st : ServerState)
    (req : ChatRequest) (u : UserRec)
    (hu : dictGet req.userId st.users = some u)
    (ht : u.tier = SubscriptionTier.free)
    (hm : (rollover env.todayLocal u).messagesToday ≥ 25) :
    (chatStep env st req).response =
      Except.error
        { status := 429,
          detail := quotaDetail (get_tier_limits SubscriptionTier.free) } ∧
    (chatStep env st req).vendorRequest = none ∧
    (chatStep env st req).cost = none ∧
    (chatStep env st req).state = st := by
  have hroll : rollover env.todayLocal u = u :=
    rollover_eq_of_pos _ _ (lt_of_lt_of_le (by norm_num) hm)
  have hgu : getOrCreateUser st req.userId = u := by
    simp [getOrCreateUser, hu]
  have hq :
      quotaBlocked (get_tier_limits u.tier) (rollover env.todayLocal u) := by
    rw [ht, hroll]
    refine ⟨by decide, ?_⟩
    rw [hroll] at hm
    show (u.messagesToday : Int) ≥ 25
    exact_mod_cast hm
  simp only [chatStep, hgu, ht]
  rw [ht] at hq
  rw [if_pos hq, hroll]
  refine ⟨rfl, rfl, rfl, ?_⟩
  show ({ st with users := dictInsert req.userId u st.users } : ServerState) = st
  rw [dictInsert_dictGet_eq hu]

/-- Witness for C1: the FREE-tier user `U1` already at 25 messages today is
rejected with 429, no vendor request is recorded, and the state is
untouched. -/
theorem c1_quota_rejection_witness :
    dictGet "U1" stC1.users = some uC1 ∧
    uC1.tier = SubscriptionTier.free ∧
    (rollover envC1.todayLocal uC1).messagesToday ≥ 25 ∧
    (chatStep envC1 stC1 reqC1).response =
      Except.error
        { status := 429,
          detail := quotaDetail (get_tier_limits SubscriptionTier.free) } ∧
    (chatStep envC1 stC1 reqC1).vendorRequest = none ∧
    (chatStep envC1 stC1 reqC1).state = stC1 := by
  have h := c1_quota_rejection envC1 stC1 reqC1 uC1 rfl rfl (by decide)
  exact ⟨rfl, rfl, by decide, h.1, h.2.1, h.2.2.2⟩

/-- Claim C3: for every chat turn of a FREE-tier user, the vendor request
carries provider OpenAI, model `gpt-3.5-turbo`, and no user credential,
regardless of the stored provider preference, key mode and BYOK keys. -/
theorem c3_free_tier_override (env : ChatEnv) (st : ServerState)
    (req : ChatRequest) (u : UserRec) (vr : VendorRequest)
    (hu : dictGet req.userId st.users = some u)
    (ht : u.tier = SubscriptionTier.free)
    (hvr : (chatStep env st req).vendorRequest = some vr) :
    vr.provider = LLMProvider.openai ∧
    vr.model = some FREE_TIER_MODEL ∧
    vr.apiKey = none := by
  have hb := chatStep_vendorRequest_some hvr
  have hgu : getOrCreateUser st req.userId = u := by
    simp [getOrCreateUser, hu]
  rw [hgu, ht] at hb
  rw [hb]
  simp [buildVendorRequest, resolveProviderModelKey]

/-- Witness for C3: FREE-tier user `U3` stores provider Anthropic, BYOK key
mode and per-vendor keys, yet the vendor request goes to OpenAI with the
free model and no credential. -/
theorem c3_free_tier_override_witness :
    uC3.provider = LLMProvider.anthropic ∧
    uC3.keyMode = KeyMode.byok ∧
    uC3.openaiKey = some "sk-user-openai" ∧
    uC3.tier = SubscriptionTier.free ∧
    (chatStep envC3 stC3 reqC3).vendorRequest = some vr3 ∧
    vr3.provider = LLMProvider.openai ∧
    vr3.model = some FREE_TIER_MODEL ∧
    vr3.apiKey = none := by
  refine ⟨rfl, rfl, rfl, rfl, rfl, ?_⟩
  exact c3_free_tier_override envC3 stC3 reqC3 uC3 vr3 rfl rfl rfl

/-- Claim C8: the system-prompt resolution returns the fixed per-mode
template concatenated with the fixed contextual suffix, and a chat turn
whose stored personality-mode string is not a recognized variant uses the
baseline (operator) prompt rather than raising an error. -/
theorem c8_personality_fallback :
    (∀ mode : PersonalityMode,
      get_system_prompt mode = PERSONALITY_PROMPTS mode ++ cloud_context) ∧
    (∀ (env : ChatEnv) (st : ServerState) (req : ChatRequest) (u : UserRec)
       (s : String) (vr : VendorRequest),
      dictGet req.userId st.users = some u →
      u.personalityMode = some s →
      parsePersonalityMode s = none →
      (chatStep env st req).vendorRequest = some vr →
      vr.systemPrompt = get_system_prompt PersonalityMode.operator) := by
  refine ⟨fun _ => rfl, fun env st req u s vr hu hp hn hvr => ?_⟩
  have hb := chatStep_vendorRequest_some hvr
  have hgu : getOrCreateUser st req.userId = u := by
    simp [getOrCreateUser, hu]
  have hroll :
      (rollover env.todayLocal (getOrCreateUser st req.userId)).personalityMode
        = some s := by
    rw [rollover_personalityMode, hgu, hp]
  rw [hb]
  simp only [buildVendorRequest]
  rw [hroll]
  simp [resolvePersonality, hn]

/-- Witness for C8: user `U8` stores the unrecognized mode `"banana"`; the
chat turn still reaches the vendor and does so with the operator baseline
prompt. -/
theorem c8_personality_fallback_witness :
    uC8.personalityMode = some "banana" ∧
    parsePersonalityMode "banana" = none ∧
    (chatStep envC8 stC8 reqC8).vendorRequest = some vr8 ∧
    vr8.systemPrompt = get_system_prompt PersonalityMode.operator := by
  refine ⟨rfl, rfl, rfl, ?_⟩
  exact c8_personality_fallback.2 envC8 stC8 reqC8 uC8 "banana" vr8 rfl rfl rfl rfl

/-- Counterexample to claim C5 as stated: the quota step uses the
server-local date (`date.today()`), not the current UTC date.  User `U5` has
`lastMessageDate` equal to the current UTC date and `messagesToday = 25` on
the FREE tier, so under the claim the turn must be rejected with no reset;
the code instead resets the counter against the lagging local date, stamps
the local date, and proceeds to call the vendor. -/
theorem c5_utc_counterexample :
    uC5.tier = SubscriptionTier.free ∧
    uC5.messagesToday = 25 ∧
    uC5.lastMessageDate = some envC5.todayUtc ∧
    envC5.todayLocal ≠ envC5.todayUtc ∧
    ((chatStep envC5 stC5 reqC5).vendorRequest).isSome = true ∧
    Option.map UserRec.lastMessageDate
        (dictGet "U5" (chatStep envC5 stC5 reqC5).state.users) =
      some (some envC5.todayLocal) := by
  exact ⟨rfl, rfl, rfl, by decide, by decide, by decide⟩

/-- Claim C5 as amended: the quota step computes today as the current
server-local date; when the stored `lastMessageDate` differs from it, the
rollover resets `messagesToday` to 0 and stamps the local date before the
cap is checked, so such a user is never rejected by the cap and the turn
reaches the vendor call. -/
theorem c5_rollover_local_date (env : ChatEnv) (st : ServerState)
    (req : ChatRequest) (u : UserRec)
    (hu : dictGet req.userId st.users = some u)
    (hd : u.lastMessageDate ≠ some env.todayLocal) :
    (rollover env.todayLocal u).messagesToday = 0 ∧
    (rollover env.todayLocal u).lastMessageDate = some env.todayLocal ∧
    ((chatStep env st req).vendorRequest).isSome = true := by
  have h1 := rollover_reset env.todayLocal u hd
  refine ⟨by rw [h1], by rw [h1], ?_⟩
  have hgu : getOrCreateUser st req.userId = u := by
    simp [getOrCreateUser, hu]
  have hnq :
      ¬ quotaBlocked (get_tier_limits u.tier) (rollover env.todayLocal u) := by
    have hm0 : (rollover env.todayLocal u).messagesToday = 0 := by rw [h1]
    rintro ⟨hsent, hge⟩
    rw [hm0] at hge
    rcases htier : u.tier
    · rw [htier] at hge
      norm_num [get_tier_limits] at hge
    · rw [htier] at hsent
      exact hsent rfl
  simp only [chatStep, hgu]
  rw [if_neg hnq, chatStepAfterQuota_vendorRequest]
  rfl

/-- Witness for the amended C5: user `U5y` dated yesterday with
`messagesToday = 25` has the counter reset, the date stamped, and the turn
proceeds to the vendor. -/
theorem c5_rollover_local_date_witness :
    uC5y.messagesToday = 25 ∧
    uC5y.lastMessageDate = some "2026-10-11" ∧
    envC5y.todayLocal = "2026-10-12" ∧
    (rollover envC5y.todayLocal uC5y).messagesToday = 0 ∧
    (rollover envC5y.todayLocal uC5y).lastMessageDate =
      some envC5y.todayLocal ∧
    ((chatStep envC5y stC5y reqC5y).vendorRequest).isSome = true := by
  have h := c5_rollover_local_date envC5y stC5y reqC5y uC5y rfl (by decide)
  exact ⟨rfl, rfl, rfl, h.1, h.2.1, h.2.2⟩

/-- Claim C6: a chat turn on an existing session with stored history sends
to the vendor exactly the last 10 stored messages in original order followed
by the new user message, while the full stored history is retained and is
what the session-messages endpoint returns to the owner. -/
theorem c6_context_truncation (env : ChatEnv) (st : ServerState)
    (req : ChatRequest) (s : SessionRec) (hist : List StoredMessage)
    (vr : VendorRequest) (sid : String)
    (hreq : req.sessionId = some sid)
    (hne : sid ≠ "")
    (hs : dictGet sid st.sessions = some s)
    (hh : dictGet sid st.messages = some hist)
    (hvr : (chatStep env st req).vendorRequest = some vr) :
    vr.messages =
      (lastN 10 hist).map (fun m => { role := m.role, content := m.content })
        ++ [{ role := "user", content := req.content }] ∧
    get_session_messages st sid s.userId = Except.ok hist := by
  have hb := chatStep_vendorRequest_some hvr
  constructor
  · rw [hb]
    simp only [buildVendorRequest, resolveSessionId, hreq]
    rw [if_neg hne]
    simp only [ensureSession]
    rw [show dictGet sid
          ({ st with
              users := dictInsert req.userId
                (rollover env.todayLocal (getOrCreateUser st req.userId))
                st.users } : ServerState).sessions = some s from hs]
    simp only [Option.isNone_some, Bool.false_eq_true, if_false]
    rw [show dictGet sid
          ({ st with
              users := dictInsert req.userId
                (rollover env.todayLocal (getOrCreateUser st req.userId))
                st.users } : ServerState).messages = some hist from hh]
    rfl
  · simp [get_session_messages, hs, hh]

/-- Witness for C6: session `s6` holds 30 stored messages; the vendor
request carries exactly the last 10 plus the new user turn (11 messages),
and the owner still receives all 30 from the session-messages endpoint. -/
theorem c6_context_truncation_witness :
    history30.length = 30 ∧
    (chatStep envC6 stC6 reqC6).vendorRequest = some vr6 ∧
    vr6.messages =
      (lastN 10 history30).map (fun m => { role := m.role, content := m.content })
        ++ [{ role := "user", content := "new-msg" }] ∧
    vr6.messages.length = 11 ∧
    get_session_messages stC6 "s6" "A6" = Except.ok history30 := by
  have h := c6_context_truncation envC6 stC6 reqC6 sess6 history30 vr6 "s6"
    rfl (by decide) rfl rfl rfl
  exact ⟨by decide, rfl, h.1, by decide, h.2⟩

set_option maxRecDepth 8192 in
/-- Claim C4, evaluated at the failing input: the chat endpoint performs no
ownership check on a supplied session id.  User `B` sends a chat turn naming
session `sess-a` owned by user `A`; the code reads the stored message
`a-secret` of `A` into the vendor context and appends the turn of `B` to the
session of `A`, violating exclusive ownership. -/
theorem c4_cross_user_session_bug :
    sessA.userId = "A" ∧
    reqC4.userId = "B" ∧
    ("B" : String) ≠ "A" ∧
    dictGet "sess-a" stC4.sessions = some sessA ∧
    (chatStep envC4 stC4 reqC4).vendorRequest =
      some { provider := LLMProvider.openai
             messages := [{ role := "user", content := "a-secret" },
                          { role := "user", content := "hi" }]
             apiKey := none
             model := some FREE_TIER_MODEL
             systemPrompt := get_system_prompt PersonalityMode.operator } ∧
    dictGet "sess-a" (chatStep envC4 stC4 reqC4).state.messages =
      some [{ role := "user", content := "a-secret", timestamp := "t0" },
            { role := "user", content := "hi", timestamp := "t1" },
            { role := "assistant", content := "resp", timestamp := "t1" }] := by
  exact ⟨rfl, rfl, by decide, rfl, by rfl, by rfl⟩

set_option maxRecDepth 8192 in
/-- Counterexample to claim C10 as stated: a vendor failure does leave one
state change beyond the day rollover — the lazily created session record.
With no session id supplied and a failing vendor, the turn raises HTTP 500
yet the state now holds a fresh empty session. -/
theorem c10_error_counterexample :
    (chatStep envC10 stC10 reqC10).response =
      Except.error { status := 500, detail := "boom" } ∧
    dictGet "fresh-10" stC10.sessions = none ∧
    dictGet "fresh-10" (chatStep envC10 stC10 reqC10).state.sessions =
      some { id := "fresh-10", userId := "U10", title := "New Chat",
             createdAt := "t1" } ∧
    dictGet "fresh-10" (chatStep envC10 stC10 reqC10).state.messages =
      some [] := by
  exact ⟨by rfl, rfl, by rfl, by rfl⟩

/-- Claim C10 as amended: when the vendor call of a chat turn fails, the
endpoint raises HTTP 500 carrying the vendor body, and beyond the
day-rollover reset and the lazy creation of an empty session record nothing
changes: no message is appended to any existing session, the caller's
counters are exactly the rolled-over ones, and no cost is computed. -/
theorem c10_vendor_error_no_mutation (env : ChatEnv) (st : ServerState)
    (req : ChatRequest) (vr : VendorRequest) (body : String) (code : Nat)
    (hvr : (chatStep env st req).vendorRequest = some vr)
    (hv : env.vendor vr = VendorResult.err body code) :
    (chatStep env st req).response =
      Except.error { status := 500, detail := body } ∧
    (chatStep env st req).cost = none ∧
    (∀ (sid : String) (s : SessionRec) (m : List StoredMessage),
      dictGet sid st.sessions = some s → dictGet sid st.messages = some m →
      dictGet sid (chatStep env st req).state.messages = some m) ∧
    dictGet req.userId (chatStep env st req).state.users =
      some (rollover env.todayLocal (getOrCreateUser st req.userId)) := by
  have hb := chatStep_vendorRequest_some hvr
  simp only [chatStep] at hvr ⊢
  by_cases hq :
      quotaBlocked (get_tier_limits (getOrCreateUser st req.userId).tier)
        (rollover env.todayLocal (getOrCreateUser st req.userId))
  · rw [if_pos hq] at hvr
    simp at hvr
  · rw [if_neg hq] at hvr ⊢
    rw [hb] at hv
    simp only [chatStepAfterQuota]
    rw [hv]
    refine ⟨rfl, rfl, ?_, ?_⟩
    · intro sid s m hs hm
      simp only [ensureSession]
      by_cases hc :
          (dictGet (resolveSessionId req.sessionId env.freshSessionId)
            ({ st with
                users := dictInsert req.userId
                  (rollover env.todayLocal (getOrCreateUser st req.userId))
                  st.users } : ServerState).sessions).isNone
      · rw [if_pos hc]
        have hne : sid ≠ resolveSessionId req.sessionId env.freshSessionId := by
          intro heq
          rw [← heq] at hc
          rw [show dictGet sid
                ({ st with
                    users := dictInsert req.userId
                      (rollover env.todayLocal (getOrCreateUser st req.userId))
                      st.users } : ServerState).sessions = some s from hs] at hc
          simp at hc
        show dictGet sid
            (dictInsert (resolveSessionId req.sessionId env.freshSessionId) []
              st.messages) = some m
        rw [dictGet_dictInsert_ne _ _ hne]
        exact hm
      · rw [if_neg hc]
        exact hm
    · simp only [ensureSession]
      by_cases hc :
          (dictGet (resolveSessionId req.sessionId env.freshSessionId)
            ({ st with
                users := dictInsert req.userId
                  (rollover env.todayLocal (getOrCreateUser st req.userId))
                  st.users } : ServerState).sessions).isNone
      · rw [if_pos hc]
        exact dictGet_dictInsert_self _ _ _
      · rw [if_neg hc]
        exact dictGet_dictInsert_self _ _ _

/-- Witness for the amended C10: the failing vendor run of user `U10`
returns 500 with the vendor body, computes no cost, and leaves the caller
with exactly the rolled-over counters. -/
theorem c10_vendor_error_no_mutation_witness :
    envC10.vendor vr10 = VendorResult.err "boom" 503 ∧
    (chatStep envC10 stC10 reqC10).response =
      Except.error { status := 500, detail := "boom" } ∧
    (chatStep envC10 stC10 reqC10).cost = none ∧
    dictGet "U10" (chatStep envC10 stC10 reqC10).state.users =
      some (rollover envC10.todayLocal (getOrCreateUser stC10 "U10")) := by
  have h := c10_vendor_error_no_mutation envC10 stC10 reqC10 vr10 "boom" 503
    rfl rfl
  exact ⟨rfl, h.1, h.2.1, h.2.2.2⟩

end Gltch
